import Mathlib

/-!
Shallow embedding of the authentication core of the `servemax` repository
(`internal/auth/auth.go`): password hashing/verification (via
`golang.org/x/crypto/bcrypt`) and JWT issuance/validation (via
`github.com/golang-jwt/jwt/v5` and `github.com/google/uuid`).

Modelling conventions:
- Timestamps and durations are integers in seconds (`jwt.NewNumericDate`
  truncates to second precision, `jwt.TimePrecision = time.Second`).
- `time.Now()` is passed in explicitly as a `now` parameter; the two
  `time.Now().UTC()` calls inside `MakeJWT` are modelled as one instant.
- Cryptographic primitives (HMAC-SHA256, bcrypt's key derivation) are
  modelled symbolically: a signature/digest is a term that records exactly
  the algorithm, key and signed content, so two signatures are equal iff
  they were produced from the same algorithm, key and content.  This is the
  standard idealized-MAC model; real HMAC collisions are assumed away.
- The randomness of bcrypt's salt (`io.ReadFull(rand.Reader, ...)`) is an
  explicit `salt` parameter; the entropy source itself is assumed to work.
-/

/-! ## UUID model (`github.com/google/uuid`)

A `uuid.UUID` is `[16]byte`.  `String` formats it as 36 lowercase hex
characters in groups 8-4-4-4-12 separated by dashes (`encodeHex`).
`Parse` is modelled for the canonical 36-character form only — the form
`String` produces and the only one this application ever emits; the other
encodings accepted by `uuid.Parse` (urn-prefixed, braced, dashless 32-hex)
are omitted since no claim depends on them, and every input outside the
modelled form is a parse failure both here and in the library. -/

/-- The lowercase hex digit table used by `encoding/hex` (`hextable`). -/
def hextable : List Char := "0123456789abcdef".data

/-- High hex digit of a byte: `hextable[b>>4]` in `hex.Encode`.
The default ' ' is never reached since `b / 16 < 16`. -/
def hexHi (b : Fin 256) : Char := hextable.getD (b.val / 16) ' '

/-- Low hex digit of a byte: `hextable[b&0x0f]` in `hex.Encode`. -/
def hexLo (b : Fin 256) : Char := hextable.getD (b.val % 16) ' '

/-- `xvalues` lookup from `uuid.xtob`: the value of one hex character,
accepting digits and both lowercase and uppercase letters (48–57 are
codes of 0–9, 97–102 of a–f, 65–70 of A–F). -/
def xvalue (c : Char) : Option Nat :=
  if 48 ≤ c.toNat ∧ c.toNat ≤ 57 then some (c.toNat - 48)
  else if 97 ≤ c.toNat ∧ c.toNat ≤ 102 then some (c.toNat - 97 + 10)
  else if 65 ≤ c.toNat ∧ c.toNat ≤ 70 then some (c.toNat - 65 + 10)
  else none

/-- `uuid.xtob(x1, x2)`: convert two hex characters to one byte
`(b1 << 4) | b2`.  The bound check is an embedding artifact: `xvalue`
only returns values below 16, so `16 * h + l < 256` always holds. -/
def xtob (c1 c2 : Char) : Option (Fin 256) :=
  match xvalue c1, xvalue c2 with
  | some h, some l => if hl : 16 * h + l < 256 then some ⟨16 * h + l, hl⟩ else none
  | _, _ => none

/-- `uuid.UUID`: a 128-bit identifier, `[16]byte` in Go. -/
structure UUID where
  b0 : Fin 256
  b1 : Fin 256
  b2 : Fin 256
  b3 : Fin 256
  b4 : Fin 256
  b5 : Fin 256
  b6 : Fin 256
  b7 : Fin 256
  b8 : Fin 256
  b9 : Fin 256
  b10 : Fin 256
  b11 : Fin 256
  b12 : Fin 256
  b13 : Fin 256
  b14 : Fin 256
  b15 : Fin 256
deriving DecidableEq

/-- `uuid.Nil`: the all-zero UUID. -/
def uuidNil : UUID := ⟨0, 0, 0, 0, 0, 0, 0, 0, 0, 0, 0, 0, 0, 0, 0, 0⟩

/-- `uuid.UUID.String` via `encodeHex`: hex of bytes 0–3, a dash, bytes
4–5, a dash, bytes 6–7, a dash, bytes 8–9, a dash, bytes 10–15. -/
def uuidStringChars (u : UUID) : List Char :=
  [hexHi u.b0, hexLo u.b0, hexHi u.b1, hexLo u.b1,
   hexHi u.b2, hexLo u.b2, hexHi u.b3, hexLo u.b3, '-',
   hexHi u.b4, hexLo u.b4, hexHi u.b5, hexLo u.b5, '-',
   hexHi u.b6, hexLo u.b6, hexHi u.b7, hexLo u.b7, '-',
   hexHi u.b8, hexLo u.b8, hexHi u.b9, hexLo u.b9, '-',
   hexHi u.b10, hexLo u.b10, hexHi u.b11, hexLo u.b11,
   hexHi u.b12, hexLo u.b12, hexHi u.b13, hexLo u.b13,
   hexHi u.b14, hexLo u.b14, hexHi u.b15, hexLo u.b15]

/-- `uuid.UUID.String` as a Lean string. -/
def uuidString (u : UUID) : String := ⟨uuidStringChars u⟩

/-- `uuid.Parse` on the canonical form: exactly 36 characters, dashes at
indices 8, 13, 18 and 23, and the 16 bytes read by `xtob` from the hex
positions 0,2,4,6, 9,11, 14,16, 19,21, 24,26,28,30,32,34; every other
shape is a parse error. -/
def uuidParseChars (s : List Char) : Option UUID :=
  match s with
  | a0 :: a1 :: a2 :: a3 :: a4 :: a5 :: a6 :: a7 :: '-' ::
    c0 :: c1 :: c2 :: c3 :: '-' ::
    d0 :: d1 :: d2 :: d3 :: '-' ::
    e0 :: e1 :: e2 :: e3 :: '-' ::
    f0 :: f1 :: f2 :: f3 :: f4 :: f5 :: f6 :: f7 :: f8 :: f9 :: f10 :: f11 :: [] => do
    let B0 ← xtob a0 a1
    let B1 ← xtob a2 a3
    let B2 ← xtob a4 a5
    let B3 ← xtob a6 a7
    let B4 ← xtob c0 c1
    let B5 ← xtob c2 c3
    let B6 ← xtob d0 d1
    let B7 ← xtob d2 d3
    let B8 ← xtob e0 e1
    let B9 ← xtob e2 e3
    let B10 ← xtob f0 f1
    let B11 ← xtob f2 f3
    let B12 ← xtob f4 f5
    let B13 ← xtob f6 f7
    let B14 ← xtob f8 f9
    let B15 ← xtob f10 f11
    some ⟨B0, B1, B2, B3, B4, B5, B6, B7, B8, B9, B10, B11, B12, B13, B14, B15⟩
  | _ => none

/-- `uuid.Parse` on a Lean string. -/
def uuidParse (s : String) : Option UUID := uuidParseChars s.data

set_option maxRecDepth 8192 in
/-- Decoding inverts encoding on each byte: `xtob` applied to the two hex
digits of a byte recovers the byte. -/
theorem xtob_hex : ∀ b : Fin 256, xtob (hexHi b) (hexLo b) = some b := by decide

/-- `uuid.Parse` recovers the UUID from its `String` form. -/
theorem uuidParse_uuidString (u : UUID) : uuidParse (uuidString u) = some u := by
  show uuidParseChars (uuidStringChars u) = some u
  simp only [uuidStringChars, uuidParseChars, xtob_hex, Option.bind_eq_bind,
    Option.some_bind]

/-! ## JWT model (`github.com/golang-jwt/jwt/v5` as used by `auth.go`)

A parsed token is its header algorithm, its registered claims and its
signature.  Base64/JSON wire format is abstracted: any token string whose
segments do not decode is the `malformed` case, which `ParseWithClaims`
rejects before the keyfunc runs. -/

/-- The signing algorithms registered with `golang-jwt/v5`
(`GetSigningMethod`); a header naming anything else fails parsing and is
covered by `TokenString.malformed`.  `NoneAlg` is the "none" algorithm
(`SigningMethodNone`). -/
inductive Alg where
  | HS256
  | HS384
  | HS512
  | RS256
  | RS384
  | RS512
  | ES256
  | ES384
  | ES512
  | PS256
  | PS384
  | PS512
  | EdDSA
  | NoneAlg
deriving DecidableEq

/-- The type-assertion `token.Method.(*jwt.SigningMethodHMAC)` in the
keyfunc of `ValidateJWT`: only the HS family are `SigningMethodHMAC`. -/
def Alg.isHMAC : Alg → Bool
  | .HS256 => true
  | .HS384 => true
  | .HS512 => true
  | _ => false

/-- `jwt.RegisteredClaims` restricted to the fields this application sets
(`Issuer`, `IssuedAt`, `ExpiresAt`, `Subject` in `MakeJWT`) plus
`NotBefore`, which the v5 validator always consults when present.
`Audience` and `ID` are never set and never checked (no parser options are
passed), so they are omitted.  Absent timestamps are `none`, matching the
pointer fields of the Go struct. -/
structure RegisteredClaims where
  issuer : String
  issuedAt : Option Int
  expiresAt : Option Int
  notBefore : Option Int
  subject : String
deriving DecidableEq

/-- Idealized MAC: a signature records the algorithm, key and signed
claims.  `Method.Verify` succeeds exactly when the presented signature
equals the one recomputed from the expected algorithm, key and content;
constructor injectivity models collision-freeness of HMAC-SHA256. -/
inductive Sig where
  | mk (alg : Alg) (key : String) (content : RegisteredClaims)
deriving DecidableEq

/-- A candidate token string handed to `ValidateJWT`: either it fails
segment/base64/JSON decoding in `ParseUnverified` (`malformed`), or it
decodes to a header algorithm, claims, and a signature. -/
inductive TokenString where
  | malformed
  | token (alg : Alg) (claims : RegisteredClaims) (sig : Sig)
deriving DecidableEq

/-- The claim-validation failures of the v5 `Validator`:
`ErrTokenExpired` and `ErrTokenNotValidYet`.  `ErrTokenUsedBeforeIssued`
cannot arise because `iat` verification is opt-in (`WithIssuedAt`) and
`ValidateJWT` passes no parser options. -/
inductive ClaimsErr where
  | expired
  | notValidYet
deriving DecidableEq

/-- The errors `jwt.ParseWithClaims` returns in `ValidateJWT`:
`ErrTokenMalformed`, `ErrTokenUnverifiable` (keyfunc returned
`errors.New("unexpected signing method")`), `ErrTokenSignatureInvalid`,
and `ErrTokenInvalidClaims` wrapping the list of claim failures. -/
inductive JWTError where
  | malformedToken
  | unexpectedSigningMethod
  | signatureInvalid
  | invalidClaims (errs : List ClaimsErr)
deriving DecidableEq

/-- Errors of `ValidateJWT` itself: an error propagated unchanged from
`ParseWithClaims`, the dead `"invalid token"` branch (claims type
assertion or `!token.Valid`, unreachable once parsing succeeded), or
`"invalid user ID in token"` when `uuid.Parse` fails on the subject. -/
inductive AuthError where
  | jwtError (e : JWTError)
  | invalidToken
  | invalidUserID
deriving DecidableEq

/-- The default v5 `Validator.Validate` on `RegisteredClaims` with zero
leeway and no parser options: collect `ErrTokenExpired` when the token has
an `exp` and `now` is not strictly before it, then `ErrTokenNotValidYet`
when it has an `nbf` that is still in the future; an absent claim is not
an error (`required` is false for both). -/
def validateClaims (now : Int) (c : RegisteredClaims) : List ClaimsErr :=
  (match c.expiresAt with
   | some e => if now < e then [] else [ClaimsErr.expired]
   | none => []) ++
  (match c.notBefore with
   | some n => if now < n then [ClaimsErr.notValidYet] else []
   | none => [])

/-- `jwt.ParseWithClaims` with the keyfunc of `ValidateJWT`: reject
undecodable input as malformed; run the keyfunc, which rejects any
non-HMAC method with `errors.New("unexpected signing method")` and
otherwise returns `[]byte(tokenSecret)`; verify the signature with the
header's method and that key; finally run claim validation.  This is the
order of the v5 parser: keyfunc, then `Method.Verify`, then
`validator.Validate`. -/
def jwtParseWithClaims (now : Int) (ts : TokenString) (tokenSecret : String) :
    Except JWTError RegisteredClaims :=
  match ts with
  | .malformed => .error .malformedToken
  | .token alg claims sig =>
    if alg.isHMAC = false then .error .unexpectedSigningMethod
    else if sig = Sig.mk alg tokenSecret claims then
      match validateClaims now claims with
      | [] => .ok claims
      | errs => .error (.invalidClaims errs)
    else .error .signatureInvalid

/-- `auth.MakeJWT(userID, tokenSecret, expiresIn)` at instant `now`:
claims with issuer `"chirpy"`, issued-at `now`, expiry `now + expiresIn`,
subject `userID.String()`, signed with HS256 under `tokenSecret`.
(`SignedString` cannot fail for HMAC with a byte-slice key, so issuance is
total.) -/
def MakeJWT (userID : UUID) (tokenSecret : String) (expiresIn : Int) (now : Int) :
    TokenString :=
  let claims : RegisteredClaims :=
    { issuer := "chirpy"
      issuedAt := some now
      expiresAt := some (now + expiresIn)
      notBefore := none
      subject := uuidString userID }
  TokenString.token Alg.HS256 claims (Sig.mk Alg.HS256 tokenSecret claims)

/-- `auth.ValidateJWT(tokenString, tokenSecret)` at instant `now`: parse
and verify, then parse the subject claim back into a UUID; on any failure
return `uuid.Nil` together with the error, mirroring every `return
uuid.Nil, err` in the source. -/
def ValidateJWT (now : Int) (tokenString : TokenString) (tokenSecret : String) :
    UUID × Option AuthError :=
  match jwtParseWithClaims now tokenString tokenSecret with
  | .error e => (uuidNil, some (AuthError.jwtError e))
  | .ok claims =>
    match uuidParse claims.subject with
    | none => (uuidNil, some AuthError.invalidUserID)
    | some userID => (userID, none)

/-! ## bcrypt model (`golang.org/x/crypto/bcrypt` as used by `auth.go`)

A produced hash string encodes the cost, the random salt and the bcrypt
digest of the password; it is modelled as a record of cost, salt and the
password bytes fed to the key schedule, with record equality standing for
digest equality (idealized collision-free key derivation).
`GenerateFromPassword` rejects passwords longer than 72 bytes with
`ErrPasswordTooLong` before hashing; `HashPassword` always passes
`bcrypt.DefaultCost`, so the cost bounds checks of `newFromPassword` never
fail and are omitted.  The salt drawn from `rand.Reader` is the explicit
`salt` argument. -/

/-- Errors of the bcrypt operations used here: `ErrPasswordTooLong`
("password length exceeds 72 bytes") from `GenerateFromPassword`, and
`ErrMismatchedHashAndPassword` from `CompareHashAndPassword`. -/
inductive BcryptError where
  | passwordTooLong
  | mismatchedHashAndPassword
deriving DecidableEq

/-- A bcrypt hash string `$2a$cost$saltdigest`: the encoded cost, the
encoded salt, and the digest, the latter determined by the key (password)
and modelled symbolically by it. -/
structure HashedPassword where
  cost : Nat
  salt : Nat
  key : String
deriving DecidableEq

/-- `bcrypt.DefaultCost`. -/
def bcryptDefaultCost : Nat := 10

/-- `bcrypt.GenerateFromPassword(password, cost)` with salt drawn from the
entropy source: fail with `ErrPasswordTooLong` if the password exceeds 72
bytes (`len(password)` counts UTF-8 bytes), otherwise produce the encoded
hash. -/
def bcryptGenerateFromPassword (salt : Nat) (password : String) (cost : Nat) :
    Except BcryptError HashedPassword :=
  if password.utf8ByteSize > 72 then .error .passwordTooLong
  else .ok { cost := cost, salt := salt, key := password }

/-- `bcrypt.CompareHashAndPassword(hash, password)`: recompute the digest
from the stored cost and salt with the presented password and compare in
constant time; success exactly when the password reproduces the digest.
(Modelled for passwords within the 72-byte limit, the only ones
`GenerateFromPassword` ever hashes.) -/
def bcryptCompareHashAndPassword (hash : HashedPassword) (password : String) :
    Except BcryptError Unit :=
  if hash.key = password then .ok () else .error .mismatchedHashAndPassword

/-- `auth.HashPassword(password)`: `bcrypt.GenerateFromPassword` with
`bcrypt.DefaultCost`, propagating its error. -/
def HashPassword (salt : Nat) (password : String) : Except BcryptError HashedPassword :=
  bcryptGenerateFromPassword salt password bcryptDefaultCost

/-- `auth.CheckPasswordHash(hash, password)`: delegate to
`bcrypt.CompareHashAndPassword`. -/
def CheckPasswordHash (hash : HashedPassword) (password : String) :
    Except BcryptError Unit :=
  bcryptCompareHashAndPassword hash password

/-! ## Derived facts and claim theorems -/

/-- The all-0x11 UUID `11111111-1111-1111-1111-111111111111` from the
spec's scenario. -/
def sampleUUID : UUID :=
  ⟨17, 17, 17, 17, 17, 17, 17, 17, 17, 17, 17, 17, 17, 17, 17, 17⟩

/-- C1: for every subject UUID, signing secret and strictly positive ttl,
validating the token produced by `MakeJWT` with the same secret at any
instant before the expiry succeeds and returns exactly the subject. -/
theorem validateJWT_makeJWT_roundtrip (u : UUID) (secret : String) (ttl now t : Int)
    (httl : 0 < ttl) (ht : t < now + ttl) :
    ValidateJWT t (MakeJWT u secret ttl now) secret = (u, none) := by
  unfold ValidateJWT MakeJWT jwtParseWithClaims validateClaims
  simp [Alg.isHMAC, ht, uuidParse_uuidString]

/-- Witness for C1: the spec scenario — subject
`11111111-1111-1111-1111-111111111111`, secret `"supersecretkey"`,
ttl one minute, validated immediately. -/
theorem validateJWT_makeJWT_roundtrip_witness :
    ValidateJWT 0 (MakeJWT sampleUUID "supersecretkey" 60 0) "supersecretkey" =
      (sampleUUID, none) :=
  validateJWT_makeJWT_roundtrip sampleUUID "supersecretkey" 60 0 0 (by decide)
    (by decide)

/-- Example claims record for counter-scenarios: unexpired (expiry far in
the future of instant 0), well-formed subject. -/
def unexpiredClaims : RegisteredClaims :=
  { issuer := "chirpy"
    issuedAt := some 0
    expiresAt := some 3600
    notBefore := none
    subject := uuidString sampleUUID }

/-- C2: a token whose header declares a non-HMAC algorithm is rejected
with the algorithm-mismatch error (`"unexpected signing method"` from the
keyfunc), whatever its claims and signature — in particular even when it
is unexpired and correctly signed under its own algorithm. -/
theorem validateJWT_rejects_nonHMAC (now : Int) (alg : Alg)
    (claims : RegisteredClaims) (sig : Sig) (secret : String)
    (h : alg.isHMAC = false) :
    ValidateJWT now (TokenString.token alg claims sig) secret =
      (uuidNil, some (AuthError.jwtError JWTError.unexpectedSigningMethod)) := by
  unfold ValidateJWT jwtParseWithClaims
  simp [h]

/-- Witness for C2: an unexpired RS256 token correctly signed under its
own algorithm and key is still rejected with the algorithm-mismatch
error. -/
theorem validateJWT_rejects_nonHMAC_witness :
    ValidateJWT 0
      (TokenString.token Alg.RS256 unexpiredClaims
        (Sig.mk Alg.RS256 "rsa-private-key" unexpiredClaims))
      "supersecretkey" =
      (uuidNil, some (AuthError.jwtError JWTError.unexpectedSigningMethod)) :=
  validateJWT_rejects_nonHMAC 0 Alg.RS256 unexpiredClaims
    (Sig.mk Alg.RS256 "rsa-private-key" unexpiredClaims) "supersecretkey" (by decide)

/-- C5: a token issued under one secret never validates under a different
secret: the recomputed HMAC differs, so `Method.Verify` fails and
`ValidateJWT` returns `uuid.Nil` with the signature error. -/
theorem validateJWT_wrong_secret (u : UUID) (ttl now t : Int)
    (secretA secretB : String) (h : secretA ≠ secretB) :
    ValidateJWT t (MakeJWT u secretA ttl now) secretB =
      (uuidNil, some (AuthError.jwtError JWTError.signatureInvalid)) := by
  unfold ValidateJWT MakeJWT jwtParseWithClaims
  simp [Alg.isHMAC, h]

/-- Witness for C5: issue under `"supersecretkey"`, validate under
`"wrongsecretkey"`. -/
theorem validateJWT_wrong_secret_witness :
    ValidateJWT 0 (MakeJWT sampleUUID "supersecretkey" 60 0) "wrongsecretkey" =
      (uuidNil, some (AuthError.jwtError JWTError.signatureInvalid)) :=
  validateJWT_wrong_secret sampleUUID 60 0 0 "supersecretkey" "wrongsecretkey"
    (by decide)

/-- C6: the token built by `MakeJWT` carries exactly the claims
issuer `"chirpy"`, issued-at the current instant, expiry issued-at plus
ttl, subject the string form of the UUID, no not-before, and is signed
with HMAC-SHA256 (HS256) keyed by the given secret over exactly those
claims. -/
theorem makeJWT_claims (u : UUID) (secret : String) (ttl now : Int) :
    MakeJWT u secret ttl now =
      TokenString.token Alg.HS256
        { issuer := "chirpy"
          issuedAt := some now
          expiresAt := some (now + ttl)
          notBefore := none
          subject := uuidString u }
        (Sig.mk Alg.HS256 secret
          { issuer := "chirpy"
            issuedAt := some now
            expiresAt := some (now + ttl)
            notBefore := none
            subject := uuidString u }) := rfl

/-- C10: whenever `ValidateJWT` returns an error — on any failure path —
the UUID it returns alongside is `uuid.Nil`. -/
theorem validateJWT_error_returns_nil (now : Int) (ts : TokenString)
    (secret : String) (e : AuthError)
    (h : (ValidateJWT now ts secret).2 = some e) :
    (ValidateJWT now ts secret).1 = uuidNil := by
  unfold ValidateJWT at h ⊢
  rcases hp : jwtParseWithClaims now ts secret with he | claims
  · simp [hp]
  · simp only [hp] at h ⊢
    rcases hu : uuidParse claims.subject with _ | u
    · simp [hu]
    · simp [hu] at h

/-- Witness for C10: a malformed token string errors and yields
`uuid.Nil`. -/
theorem validateJWT_error_returns_nil_witness :
    (ValidateJWT 0 TokenString.malformed "supersecretkey").1 = uuidNil :=
  validateJWT_error_returns_nil 0 TokenString.malformed "supersecretkey"
    (AuthError.jwtError JWTError.malformedToken) (by decide)

/-- The expiry rejection condition of the validator: the token carries an
`exp` and the instant `now` is at or after it. -/
def isExpiredAt (now : Int) (c : RegisteredClaims) : Bool :=
  match c.expiresAt with
  | some e => if now < e then false else true
  | none => false

/-- `ErrTokenExpired` appears among the claim-validation failures exactly
when the expiry condition holds. -/
theorem expired_mem_validateClaims (now : Int) (c : RegisteredClaims) :
    ClaimsErr.expired ∈ validateClaims now c ↔ isExpiredAt now c = true := by
  unfold validateClaims isExpiredAt
  rcases c.expiresAt with _ | e <;> rcases c.notBefore with _ | n <;> simp

/-- The claim-validation failure list is empty only if the expiry
condition does not hold. -/
theorem validateClaims_nil_not_expired (now : Int) (c : RegisteredClaims)
    (h : validateClaims now c = []) : isExpiredAt now c = false := by
  rcases he : isExpiredAt now c
  · rfl
  · have := (expired_mem_validateClaims now c).mpr he
    rw [h] at this
    simp at this

/-- C3: the rejection checks are evaluated in the fixed order algorithm
mismatch, bad signature, expiry, malformed subject.  The first three
conjuncts state that the earliest failing check's error is the one
returned no matter which later conditions also hold; the last three state
the masking direction: a later check's error is only ever returned when
every earlier check passed. -/
theorem validateJWT_error_precedence (now : Int) (alg : Alg)
    (claims : RegisteredClaims) (sig : Sig) (secret : String) :
    (alg.isHMAC = false →
      (ValidateJWT now (TokenString.token alg claims sig) secret).2 =
        some (AuthError.jwtError JWTError.unexpectedSigningMethod)) ∧
    (alg.isHMAC = true → sig ≠ Sig.mk alg secret claims →
      (ValidateJWT now (TokenString.token alg claims sig) secret).2 =
        some (AuthError.jwtError JWTError.signatureInvalid)) ∧
    (alg.isHMAC = true → sig = Sig.mk alg secret claims →
      isExpiredAt now claims = true →
      ∃ errs, (ValidateJWT now (TokenString.token alg claims sig) secret).2 =
          some (AuthError.jwtError (JWTError.invalidClaims errs)) ∧
        ClaimsErr.expired ∈ errs) ∧
    ((ValidateJWT now (TokenString.token alg claims sig) secret).2 =
        some (AuthError.jwtError JWTError.signatureInvalid) →
      alg.isHMAC = true) ∧
    (∀ errs, (ValidateJWT now (TokenString.token alg claims sig) secret).2 =
        some (AuthError.jwtError (JWTError.invalidClaims errs)) →
      alg.isHMAC = true ∧ sig = Sig.mk alg secret claims) ∧
    ((ValidateJWT now (TokenString.token alg claims sig) secret).2 =
        some AuthError.invalidUserID →
      alg.isHMAC = true ∧ sig = Sig.mk alg secret claims ∧
        isExpiredAt now claims = false) := by
  unfold ValidateJWT jwtParseWithClaims
  rcases ha : alg.isHMAC
  · simp [ha]
  · by_cases hs : sig = Sig.mk alg secret claims
    · rcases hv : validateClaims now claims with _ | ⟨err, errs⟩
      · have hne := validateClaims_nil_not_expired now claims hv
        simp only [hs, hv]
        rcases hu : uuidParse claims.subject with _ | u <;> simp [hu, hne]
      · have hmem := expired_mem_validateClaims now claims
        rw [hv] at hmem
        simp [hs, hv, ha]
        intro hexp
        exact (List.mem_cons).mp (hmem.mpr hexp)
    · simp [hs, ha]

/-- Witness for C3: a token on which bad signature, expiry and malformed
subject all hold at once is rejected with the signature error, the
earliest of the three in the check order. -/
theorem validateJWT_error_precedence_witness :
    (ValidateJWT 0
        (TokenString.token Alg.HS256
          { issuer := "chirpy", issuedAt := some (-120), expiresAt := some (-60),
            notBefore := none, subject := "not-a-uuid" }
          (Sig.mk Alg.HS256 "wrongsecretkey"
            { issuer := "chirpy", issuedAt := some (-120), expiresAt := some (-60),
              notBefore := none, subject := "not-a-uuid" }))
        "supersecretkey").2 =
      some (AuthError.jwtError JWTError.signatureInvalid) :=
  (validateJWT_error_precedence 0 Alg.HS256
      { issuer := "chirpy", issuedAt := some (-120), expiresAt := some (-60),
        notBefore := none, subject := "not-a-uuid" }
      (Sig.mk Alg.HS256 "wrongsecretkey"
        { issuer := "chirpy", issuedAt := some (-120), expiresAt := some (-60),
          notBefore := none, subject := "not-a-uuid" })
      "supersecretkey").2.1 (by decide) (by decide)

/-- If the expiry condition is false and an `exp` is present, `now` is
strictly before it. -/
theorem isExpiredAt_false_lt (now e : Int) (c : RegisteredClaims)
    (hc : c.expiresAt = some e) (h : isExpiredAt now c = false) : now < e := by
  unfold isExpiredAt at h
  rw [hc] at h
  by_contra hlt
  simp [hlt] at h

/-- C4: a token carrying an expiry is accepted only strictly before it;
at or after the expiry a well-signed HMAC token is rejected with the
expired error; and `MakeJWT` accepts a zero or negative ttl without error,
producing a token that any validation at or after the issuing instant
rejects with exactly the expired error. -/
theorem validateJWT_expiry_strict :
    (∀ (now : Int) (secret : String) (alg : Alg) (claims : RegisteredClaims)
        (sig : Sig) (e : Int),
      claims.expiresAt = some e →
      (ValidateJWT now (TokenString.token alg claims sig) secret).2 = none →
      now < e) ∧
    (∀ (now : Int) (secret : String) (alg : Alg) (claims : RegisteredClaims)
        (sig : Sig) (e : Int),
      claims.expiresAt = some e → alg.isHMAC = true →
      sig = Sig.mk alg secret claims → e ≤ now →
      ∃ errs, (ValidateJWT now (TokenString.token alg claims sig) secret).2 =
          some (AuthError.jwtError (JWTError.invalidClaims errs)) ∧
        ClaimsErr.expired ∈ errs) ∧
    (∀ (u : UUID) (secret : String) (ttl now t : Int), ttl ≤ 0 → now ≤ t →
      ValidateJWT t (MakeJWT u secret ttl now) secret =
        (uuidNil,
          some (AuthError.jwtError (JWTError.invalidClaims [ClaimsErr.expired])))) := by
  refine ⟨?_, ?_, ?_⟩
  · intro now secret alg claims sig e hc h
    unfold ValidateJWT jwtParseWithClaims at h
    rcases ha : alg.isHMAC
    · simp [ha] at h
    · by_cases hs : sig = Sig.mk alg secret claims
      · rcases hv : validateClaims now claims with _ | ⟨err, errs⟩
        · exact isExpiredAt_false_lt now e claims hc
            (validateClaims_nil_not_expired now claims hv)
        · simp [ha, hs, hv] at h
      · simp [ha, hs] at h
  · intro now secret alg claims sig e hc ha hs he
    have hexp : isExpiredAt now claims = true := by
      unfold isExpiredAt
      rw [hc]
      simp [show ¬ now < e by omega]
    rcases hv : validateClaims now claims with _ | ⟨err, errs⟩
    · rw [validateClaims_nil_not_expired now claims hv] at hexp
      cases hexp
    · have hmem := expired_mem_validateClaims now claims
      rw [hv] at hmem
      refine ⟨err :: errs, ?_, hmem.mpr hexp⟩
      unfold ValidateJWT jwtParseWithClaims
      simp [ha, hs, hv]
  · intro u secret ttl now t h1 h2
    unfold ValidateJWT MakeJWT jwtParseWithClaims validateClaims
    simp [Alg.isHMAC, show ¬ t < now + ttl by omega]

/-- Witness for C4: a token issued with ttl of minus one minute is
rejected immediately afterwards with exactly the expired error. -/
theorem validateJWT_expiry_strict_witness :
    ValidateJWT 0 (MakeJWT sampleUUID "supersecretkey" (-60) 0) "supersecretkey" =
      (uuidNil,
        some (AuthError.jwtError (JWTError.invalidClaims [ClaimsErr.expired]))) :=
  validateJWT_expiry_strict.2.2 sampleUUID "supersecretkey" (-60) 0 0 (by decide)
    (by decide)

/-- C7: whenever `HashPassword` succeeds on a secret, `CheckPasswordHash`
of the produced hash against the same secret succeeds. -/
theorem checkPasswordHash_hashPassword (salt : Nat) (password : String)
    (h : HashedPassword) (hh : HashPassword salt password = Except.ok h) :
    CheckPasswordHash h password = Except.ok () := by
  unfold HashPassword bcryptGenerateFromPassword at hh
  by_cases hl : password.utf8ByteSize > 72
  · simp [hl] at hh
  · simp [hl] at hh
    subst hh
    unfold CheckPasswordHash bcryptCompareHashAndPassword
    simp

/-- Witness for C7: hash then verify a concrete secret. -/
theorem checkPasswordHash_hashPassword_witness :
    CheckPasswordHash { cost := bcryptDefaultCost, salt := 0, key := "correct-horse" }
      "correct-horse" = Except.ok () :=
  checkPasswordHash_hashPassword 0 "correct-horse"
    { cost := bcryptDefaultCost, salt := 0, key := "correct-horse" } rfl

/-- A 73-byte ASCII password. -/
def longPassword : String := String.mk (List.replicate 73 'a')

/-- C8 counterexample: `HashPassword` does fail because of input length —
`bcrypt.GenerateFromPassword` rejects any password longer than 72 bytes
with `ErrPasswordTooLong`, so a 73-byte input makes `HashPassword` return
an error that is not a catastrophic internal failure. -/
theorem hashPassword_long_fails :
    HashPassword 0 longPassword = Except.error BcryptError.passwordTooLong := rfl

/-- C8 (amended): `HashPassword` never fails because of the input's
content for inputs of at most 72 bytes — in particular it succeeds on the
empty string; only longer inputs are rejected, with `ErrPasswordTooLong`.
-/
theorem hashPassword_ok_le72 (salt : Nat) (password : String)
    (h : password.utf8ByteSize ≤ 72) :
    ∃ hp, HashPassword salt password = Except.ok hp := by
  refine ⟨{ cost := bcryptDefaultCost, salt := salt, key := password }, ?_⟩
  unfold HashPassword bcryptGenerateFromPassword
  rw [if_neg (show ¬ password.utf8ByteSize > 72 by omega)]

/-- Witness for C8 (amended): the empty string hashes without error. -/
theorem hashPassword_ok_le72_witness :
    ∃ hp, HashPassword 5 "" = Except.ok hp :=
  hashPassword_ok_le72 5 "" (by decide)

/-- C9: two hashing calls on the same secret with distinct random salts
produce distinct hashes, and each of the two hashes verifies against the
secret. -/
theorem hashPassword_salted_distinct (password : String) (s1 s2 : Nat)
    (hs : s1 ≠ s2) (h1 h2 : HashedPassword)
    (e1 : HashPassword s1 password = Except.ok h1)
    (e2 : HashPassword s2 password = Except.ok h2) :
    h1 ≠ h2 ∧ CheckPasswordHash h1 password = Except.ok () ∧
      CheckPasswordHash h2 password = Except.ok () := by
  unfold HashPassword bcryptGenerateFromPassword at e1 e2
  by_cases hl : password.utf8ByteSize > 72
  · simp [hl] at e1
  · simp [hl] at e1 e2
    subst e1
    subst e2
    refine ⟨?_, ?_, ?_⟩
    · intro hcontra
      exact hs (congrArg HashedPassword.salt hcontra)
    · unfold CheckPasswordHash bcryptCompareHashAndPassword
      simp
    · unfold CheckPasswordHash bcryptCompareHashAndPassword
      simp

/-- Witness for C9: two concrete salts, one secret. -/
theorem hashPassword_salted_distinct_witness :
    ({ cost := bcryptDefaultCost, salt := 0, key := "hunter2" } : HashedPassword) ≠
        { cost := bcryptDefaultCost, salt := 1, key := "hunter2" } ∧
      CheckPasswordHash { cost := bcryptDefaultCost, salt := 0, key := "hunter2" }
        "hunter2" = Except.ok () ∧
      CheckPasswordHash { cost := bcryptDefaultCost, salt := 1, key := "hunter2" }
        "hunter2" = Except.ok () :=
  hashPassword_salted_distinct "hunter2" 0 1 (by decide)
    { cost := bcryptDefaultCost, salt := 0, key := "hunter2" }
    { cost := bcryptDefaultCost, salt := 1, key := "hunter2" } rfl rfl
